import Mathlib

/-!
# Badger Connect backend — shallow embedding

A shallow embedding of the realtime matchmaking / session / relay /
reputation core of the Badger Connect backend (`backend/server.js`:
Express + Socket.IO server).  JavaScript `Map`s become association
lists in insertion order, `Set`s become duplicate-free lists in
insertion order, socket ids are strings, and `Date.now()` is passed to
each handler as an explicit `now : Nat`.  Session ids (uuidv4 in the
source) are modelled by a fresh-id counter `nextId`, so a session id
is a `Nat`; payload fields that may be absent (`undefined`) are
`Option`s, and absent strings are `""` exactly where the source relies
on JavaScript falsiness of the empty string.
-/

namespace BadgerConnect

/-! ## Definitions: the embedded data model and handlers -/

/-- JS `Map` lookup over an association list in insertion order. -/
def alookup {κ α : Type} [DecidableEq κ] : List (κ × α) → κ → Option α
  | [], _ => none
  | (k', v) :: rest, k => if k' = k then some v else alookup rest k

/-- JS `Map.set`: replace in place if the key is present, else append. -/
def aset {κ α : Type} [DecidableEq κ] : List (κ × α) → κ → α → List (κ × α)
  | [], k, v => [(k, v)]
  | (k', v') :: rest, k, v =>
      if k' = k then (k, v) :: rest else (k', v') :: aset rest k v

/-- `REPORT_THRESHOLD` from the source. -/
def REPORT_THRESHOLD : Nat := 3

/-- `DISLIKE_THRESHOLD` from the source. -/
def DISLIKE_THRESHOLD : Nat := 10

/-- A reputation record: `{ likes, dislikes, reports, banned }`. -/
structure Rep where
  likes : Nat
  dislikes : Nat
  reports : Nat
  banned : Bool
  deriving Repr, DecidableEq

/-- The zero-valued record `{ likes: 0, dislikes: 0, reports: 0, banned: false }`. -/
def zeroRep : Rep := { likes := 0, dislikes := 0, reports := 0, banned := false }

/-- The reputation ledger: the `reputations` Map, keyed by normalized email. -/
abbrev Ledger := List (String × Rep)

/--
`getReputation(email)`: the empty email gets a detached zero record; an
unseen email is inserted with the zero record; otherwise the stored
record is returned.  Returns the (possibly grown) map together with the
record, modelling that the source returns the map's own mutable object.
-/
def getReputation (reps : Ledger) (email : String) : Ledger × Rep :=
  if email = "" then (reps, zeroRep)
  else
    match alookup reps email with
    | some r => (reps, r)
    | none => (aset reps email zeroRep, zeroRep)

/-- The in-place record mutation performed by `applyReaction` on the
record handed out by `getReputation`: bump the counter selected by
`type`, then set `banned` when either threshold is reached. -/
def bumpRecord (r0 : Rep) (type : String) : Rep :=
  let r1 := if type = "like" then { r0 with likes := r0.likes + 1 } else r0
  let r2 := if type = "dislike" then { r1 with dislikes := r1.dislikes + 1 } else r1
  let r3 := if type = "report" then { r2 with reports := r2.reports + 1 } else r2
  if REPORT_THRESHOLD ≤ r3.reports ∨ DISLIKE_THRESHOLD ≤ r3.dislikes
  then { r3 with banned := true } else r3

/--
`applyReaction(email, type)`: bump the counter selected by `type`,
re-derive `banned`, and store the updated record back (the source
mutates the aliased object inside the map; for the empty email the
record returned by `getReputation` is detached and nothing is stored).
-/
def applyReaction (reps : Ledger) (email type : String) : Ledger × Rep :=
  let res := getReputation reps email
  let r4 := bumpRecord res.2 type
  if email = "" then (res.1, r4) else (aset res.1 email r4, r4)

/-- The ledger reached from the empty map by a sequence of
`applyReaction (email, type)` calls. -/
def ledgerAfter (calls : List (String × String)) : Ledger :=
  calls.foldl (fun reps c => (applyReaction reps c.1 c.2).1) []

/-- The spec's record invariant:
`banned == (reports >= REPORT_THRESHOLD || dislikes >= DISLIKE_THRESHOLD)`. -/
def repInv (r : Rep) : Prop :=
  r.banned = decide (REPORT_THRESHOLD ≤ r.reports ∨ DISLIKE_THRESHOLD ≤ r.dislikes)

instance (r : Rep) : Decidable (repInv r) := by unfold repInv; infer_instance

/-- Every record stored in the ledger satisfies `repInv`. -/
def ledgerInv (reps : Ledger) : Prop := ∀ p ∈ reps, repInv p.2

/-- Pointwise record growth: no counter decreases and `banned` never
reverts from `true` to `false`. -/
def repLe (a b : Rep) : Prop :=
  a.likes ≤ b.likes ∧ a.dislikes ≤ b.dislikes ∧ a.reports ≤ b.reports ∧
    (a.banned = true → b.banned = true)

/-- ASCII `toLowerCase` on one character. -/
def lowerChar (c : Char) : Char :=
  if 65 ≤ c.toNat ∧ c.toNat ≤ 90 then Char.ofNat (c.toNat + 32) else c

/-- `email.toLowerCase()`. -/
def lowerString (s : String) : String :=
  String.mk (s.data.map lowerChar)

/-- A client profile as stored in `socket.data.profile` after
normalization (absent JS fields are the empty string / empty list). -/
structure Profile where
  name : String
  email : String
  interests : List String
  deriving Repr, DecidableEq

/-- A session record: `{ id, mode, participants, startedAt }`.  The id
(uuidv4 in the source) is drawn from the fresh-id counter. -/
structure Session where
  id : Nat
  mode : String
  participants : List String
  startedAt : Nat
  deriving Repr, DecidableEq

/-- Server-to-client events (the payloads the handlers emit). -/
inductive SEvent where
  | systemBanned (rep : Rep)
  | systemError (msg : String)
  | profileReputation (email : Option String) (rep : Rep)
  | matchQueued (mode : String) (queueLength : Nat)
  | matchPaired (sessionId : Nat) (mode : String) (partnerProfile : Profile)
      (initiator : Bool)
  | chatMessage (sessionId : Nat) (body : String) (fromUser : String) (timestamp : Nat)
  | sessionEnded (sessionId : Nat)
  | partnerLeft (sessionId : Nat)
  | webrtc (kind : String) (sessionId : Nat) (payload : String)
  deriving Repr, DecidableEq

/-- Where an emission goes: `socket.emit`/`io.to(id).emit` versus `io.emit`. -/
inductive Target where
  | toSock (id : String)
  | broadcast
  deriving Repr, DecidableEq

abbrev Emission := Target × SEvent

/-- The whole mutable server state: the four shared tables, per-socket
`socket.data` fields, the transport's set of live sockets, and the
fresh-session-id counter. -/
structure ServerState where
  reputations : Ledger
  textQueue : List String
  videoQueue : List String
  sessions : List (Nat × Session)
  emailToSockets : List (String × List String)
  profiles : List (String × Profile)
  modes : List (String × String)
  connected : List String
  nextId : Nat
  deriving Repr, DecidableEq

/-- `sanitizeProfile`: `none` stands for the absent argument (JS default
`{}`); the empty name is falsy and replaced by the fallback. -/
def sanitizeProfile (profile : Option Profile) : Profile :=
  match profile with
  | none => { name := "Unknown Badger", email := "", interests := [] }
  | some p =>
      { name := if p.name = "" then "Unknown Badger" else p.name
        email := p.email
        interests := p.interests }

/-- `registerSocketForEmail(socketId, email)`. -/
def registerSocketForEmail (m : List (String × List String)) (socketId email : String) :
    List (String × List String) :=
  if email = "" then m
  else
    let normalized := lowerString email
    match alookup m normalized with
    | some socks =>
        aset m normalized (if socketId ∈ socks then socks else socks ++ [socketId])
    | none => aset m normalized [socketId]

/-- `unregisterSocket(socketId)`: delete the socket from every email's
set, dropping sets that become empty. -/
def unregisterSocket (m : List (String × List String)) (socketId : String) :
    List (String × List String) :=
  (m.map (fun e => (e.1, e.2.filter (fun id => id != socketId)))).filter
    (fun e => !e.2.isEmpty)

/-- `removeFromQueues(socketId)`: filter the socket out of every mode queue. -/
def removeFromQueues (st : ServerState) (socketId : String) : ServerState :=
  { st with
      textQueue := st.textQueue.filter (fun id => id != socketId)
      videoQueue := st.videoQueue.filter (fun id => id != socketId) }

/-- `findSessionBySocket(socketId)`: first session (insertion order)
whose participants include the socket. -/
def findSessionBySocket (sessions : List (Nat × Session)) (socketId : String) :
    Option (Nat × Session) :=
  sessions.find? (fun e => e.2.participants.contains socketId)

/-- `waitingQueues[mode]`: `none` exactly when `!mode || !waitingQueues[mode]`. -/
def getQueue (st : ServerState) (mode : String) : Option (List String) :=
  if mode = "text" then some st.textQueue
  else if mode = "video" then some st.videoQueue
  else none

/-- Write a mode's queue back. -/
def setQueue (st : ServerState) (mode : String) (q : List String) : ServerState :=
  if mode = "text" then { st with textQueue := q }
  else if mode = "video" then { st with videoQueue := q }
  else st

/-- The `while (queue.length >= 2)` loop of `attemptPair`: shift two
entries; if either socket is gone from the transport, `continue`
(dropping both); otherwise mint a session and emit the two
`match:paired` events.  Returns the remaining queue, the fresh-id
counter, the session map, and the emissions. -/
def drainQueue (connected : List String) (profiles : List (String × Profile))
    (mode : String) (now : Nat) :
    List String → Nat → List (Nat × Session) → List Emission →
    List String × Nat × List (Nat × Session) × List Emission
  | first :: second :: rest, nextId, sessions, ems =>
      if first ∉ connected ∨ second ∉ connected then
        drainQueue connected profiles mode now rest nextId sessions ems
      else
        let sessionId := nextId
        let sess : Session :=
          { id := sessionId, mode := mode, participants := [first, second],
            startedAt := now }
        let profileA := sanitizeProfile (alookup profiles second)
        let profileB := sanitizeProfile (alookup profiles first)
        drainQueue connected profiles mode now rest (nextId + 1)
          (sessions ++ [(sessionId, sess)])
          (ems ++
            [(Target.toSock first, SEvent.matchPaired sessionId mode profileA true),
             (Target.toSock second, SEvent.matchPaired sessionId mode profileB false)])
  | q, nextId, sessions, ems => (q, nextId, sessions, ems)

/-- `attemptPair(mode)`. -/
def attemptPair (st : ServerState) (mode : String) (now : Nat) :
    ServerState × List Emission :=
  match getQueue st mode with
  | none => (st, [])
  | some q =>
      match drainQueue st.connected st.profiles mode now q st.nextId st.sessions [] with
      | (q', nextId', sessions', ems) =>
          (setQueue { st with nextId := nextId', sessions := sessions' } mode q', ems)

/-- `endSession(sessionId, leaverId)`: drop the session and notify every
still-connected participant, the leaver with `system:session-ended` and
the other with `system:partner-left`. -/
def endSession (st : ServerState) (sessionId : Nat) (leaverId : String) :
    ServerState × List Emission :=
  match alookup st.sessions sessionId with
  | none => (st, [])
  | some session =>
      let st1 := { st with sessions := st.sessions.filter (fun e => e.1 != sessionId) }
      let ems := session.participants.filterMap (fun participantId =>
        if participantId ∈ st.connected then
          some (Target.toSock participantId,
            if participantId = leaverId then SEvent.sessionEnded sessionId
            else SEvent.partnerLeft sessionId)
        else none)
      (st1, ems)

/-- `relayToSessionPeer(sessionId, senderId, event, payload)`. -/
def relayToSessionPeer (st : ServerState) (sessionId : Nat) (senderId : String)
    (event : String) (payload : String) : ServerState × List Emission :=
  match alookup st.sessions sessionId with
  | none => (st, [])
  | some session =>
      if senderId ∈ session.participants then
        match session.participants.find? (fun id => id != senderId) with
        | some targetId => (st, [(Target.toSock targetId, SEvent.webrtc event sessionId payload)])
        | none => (st, [])
      else (st, [])

/-- Client-to-server events.  Fields the handlers never read (the
client timestamp of a chat message, the sessionId of a reaction) are
still carried so that independence from them can be stated. -/
inductive CEvent where
  | connect
  | profileUpdate (name email : String) (interests : List String)
  | matchRequest (mode : String)
  | chatTextMessage (sessionId : Option Nat) (body fromUser : String)
      (clientTimestamp : Option Nat)
  | chatLeave (sessionId : Option Nat)
  | profileReaction (target type : String) (sessionId : Option Nat)
  | webrtcOffer (sessionId : Option Nat) (description : String)
  | webrtcAnswer (sessionId : Option Nat) (description : String)
  | webrtcIce (sessionId : Option Nat) (candidate : Option String)
  | disconnect
  deriving Repr, DecidableEq

/-- One event dispatched for socket `sock` at server time `now`: the
bodies of the `socket.on(...)` handlers. -/
def step (st : ServerState) (sock : String) (ev : CEvent) (now : Nat) :
    ServerState × List Emission :=
  match ev with
  | .connect =>
      ({ st with connected :=
          if sock ∈ st.connected then st.connected else st.connected ++ [sock] }, [])
  | .profileUpdate name email interests =>
      let normalizedEmail := lowerString email
      let st1 := { st with
        profiles := aset st.profiles sock
          { name := name, email := normalizedEmail, interests := interests }
        emailToSockets := registerSocketForEmail st.emailToSockets sock normalizedEmail }
      let res := getReputation st1.reputations normalizedEmail
      ({ st1 with reputations := res.1 },
        (if res.2.banned then [(Target.toSock sock, SEvent.systemBanned res.2)] else []) ++
          [(Target.toSock sock, SEvent.profileReputation none res.2)])
  | .matchRequest mode =>
      match getQueue st mode with
      | none => (st, [])
      | some _ =>
          match alookup st.profiles sock with
          | none =>
              (st, [(Target.toSock sock,
                SEvent.systemError "Profile missing. Please log in again.")])
          | some profile =>
              let res := getReputation st.reputations profile.email
              let st1 := { st with reputations := res.1 }
              if res.2.banned then
                (st1, [(Target.toSock sock, SEvent.systemBanned res.2)])
              else
                let st2 := removeFromQueues st1 sock
                let st3 := { st2 with modes := aset st2.modes sock mode }
                let q := (getQueue st3 mode).getD []
                let st4 := setQueue st3 mode (q ++ [sock])
                let res2 := attemptPair st4 mode now
                (res2.1,
                  (Target.toSock sock, SEvent.matchQueued mode (q.length + 1)) :: res2.2)
  | .chatTextMessage sessionId body fromUser _clientTimestamp =>
      match sessionId with
      | none => (st, [])
      | some sid =>
          if body = "" then (st, [])
          else
            match alookup st.sessions sid with
            | none => (st, [])
            | some session =>
                if sock ∈ session.participants then
                  match session.participants.find? (fun id => id != sock) with
                  | some targetId =>
                      (st, [(Target.toSock targetId,
                        SEvent.chatMessage sid body fromUser now)])
                  | none => (st, [])
                else (st, [])
  | .chatLeave sessionId =>
      let r :=
        match sessionId with
        | some sid =>
            if (alookup st.sessions sid).isSome then endSession st sid sock
            else
              match findSessionBySocket st.sessions sock with
              | some p => endSession st p.1 sock
              | none => (st, [])
        | none =>
            match findSessionBySocket st.sessions sock with
            | some p => endSession st p.1 sock
            | none => (st, [])
      (removeFromQueues r.1 sock, r.2)
  | .profileReaction target type _sessionId =>
      if target = "" ∨ type = "" then (st, [])
      else
        let normalized := lowerString target
        let res := applyReaction st.reputations normalized type
        let st1 := { st with reputations := res.1 }
        let banEms :=
          if res.2.banned then
            match alookup st1.emailToSockets normalized with
            | some socks =>
                socks.map (fun sid => (Target.toSock sid, SEvent.systemBanned res.2))
            | none => []
          else []
        (st1, (Target.broadcast, SEvent.profileReputation (some normalized) res.2) :: banEms)
  | .webrtcOffer sessionId description =>
      match sessionId with
      | none => (st, [])
      | some sid =>
          if description = "" then (st, [])
          else relayToSessionPeer st sid sock "webrtc:offer" description
  | .webrtcAnswer sessionId description =>
      match sessionId with
      | none => (st, [])
      | some sid =>
          if description = "" then (st, [])
          else relayToSessionPeer st sid sock "webrtc:answer" description
  | .webrtcIce sessionId candidate =>
      match sessionId with
      | none => (st, [])
      | some sid =>
          match candidate with
          | none => (st, [])
          | some c => relayToSessionPeer st sid sock "webrtc:ice-candidate" c
  | .disconnect =>
      -- the transport has already dropped the socket from
      -- `io.sockets.sockets` when the `disconnect` handler runs
      let st0 := { st with connected := st.connected.filter (fun id => id != sock) }
      let st1 := removeFromQueues st0 sock
      let r :=
        match findSessionBySocket st1.sessions sock with
        | some p => endSession st1 p.1 sock
        | none => (st1, [])
      ({ r.1 with emailToSockets := unregisterSocket r.1.emailToSockets sock }, r.2)

/-- Dispatch a list of `(socket, event, now)` triples in order,
collecting every emission. -/
def runEvents (st : ServerState) :
    List (String × CEvent × Nat) → ServerState × List Emission
  | [] => (st, [])
  | (sock, ev, now) :: rest =>
      let r := step st sock ev now
      let r2 := runEvents r.1 rest
      (r2.1, r.2 ++ r2.2)

/-- A fresh server with a given set of live transport connections. -/
def initState (connected : List String) : ServerState :=
  { reputations := [], textQueue := [], videoQueue := [], sessions := [],
    emailToSockets := [], profiles := [], modes := [], connected := connected,
    nextId := 0 }

/-- `GET /reputation/:email`: `res.json(getReputation(email.toLowerCase()))`. -/
def reputationEndpoint (reps : Ledger) (email : String) : Ledger × Rep :=
  getReputation reps (lowerString email)

/-- Socket membership in an email's handle set of the identity registry. -/
def emailHas (m : List (String × List String)) (email sockId : String) : Bool :=
  match alookup m email with
  | some socks => socks.contains sockId
  | none => false

/-- No record of the ledger is banned (how a fresh ledger starts). -/
def noBans (reps : Ledger) : Prop := ∀ p ∈ reps, p.2.banned = false

/-- Number of active sessions a handle participates in. -/
def inSessionCount (sessions : List (Nat × Session)) (h : String) : Nat :=
  (sessions.filter (fun e => e.2.participants.contains h)).length

/-- Queue/session well-formedness on the three relevant components:
the queues (taken together) are duplicate-free, queued handles are in
no session, and every handle is in at most one session. -/
def QSInv (tq vq : List String) (ss : List (Nat × Session)) : Prop :=
  (tq ++ vq).Nodup ∧ (∀ h ∈ tq ++ vq, inSessionCount ss h = 0) ∧
  (∀ h, inSessionCount ss h ≤ 1)

def QueueSessionInv (st : ServerState) : Prop :=
  QSInv st.textQueue st.videoQueue st.sessions

/-- A sequence of events is safe when no handle issues `match:request`
while it participates in an active session, state recomputed as the
run proceeds. -/
def SafeRun (st : ServerState) : List (String × CEvent × Nat) → Prop
  | [] => True
  | (sock, ev, now) :: rest =>
      (∀ mode, ev = .matchRequest mode → inSessionCount st.sessions sock = 0) ∧
      SafeRun (step st sock ev now).1 rest

/-! ## Theorems -/

@[simp] theorem alookup_nil {κ α : Type} [DecidableEq κ] (k : κ) :
    alookup ([] : List (κ × α)) k = none := rfl

@[simp] theorem alookup_cons {κ α : Type} [DecidableEq κ] (k' : κ) (v : α)
    (rest : List (κ × α)) (k : κ) :
    alookup ((k', v) :: rest) k = if k' = k then some v else alookup rest k := rfl

@[simp] theorem aset_nil {κ α : Type} [DecidableEq κ] (k : κ) (v : α) :
    aset ([] : List (κ × α)) k v = [(k, v)] := rfl

@[simp] theorem aset_cons {κ α : Type} [DecidableEq κ] (k' : κ) (v' : α)
    (rest : List (κ × α)) (k : κ) (v : α) :
    aset ((k', v') :: rest) k v =
      if k' = k then (k, v) :: rest else (k', v') :: aset rest k v := rfl

theorem alookup_aset {κ α : Type} [DecidableEq κ] (l : List (κ × α)) (k : κ) (v : α) :
    alookup (aset l k v) k = some v := by
  induction l with
  | nil => simp
  | cons hd tl ih =>
      obtain ⟨k', v'⟩ := hd
      by_cases h : k' = k <;> simp [h, ih]

theorem alookup_aset_ne {κ α : Type} [DecidableEq κ] (l : List (κ × α))
    (k k'' : κ) (v : α) (hne : k ≠ k'') :
    alookup (aset l k v) k'' = alookup l k'' := by
  induction l with
  | nil => simp [hne]
  | cons hd tl ih =>
      obtain ⟨k', v'⟩ := hd
      by_cases h : k' = k
      · subst h; simp [hne]
      · simp only [aset_cons, if_neg h, alookup_cons, ih]

/-- Every value stored in the association list satisfies `P`
(the shape membership takes after a `Map.set`). -/
theorem mem_aset {κ α : Type} [DecidableEq κ] (l : List (κ × α)) (k : κ) (v : α)
    (p : κ × α) (hp : p ∈ aset l k v) : p = (k, v) ∨ p ∈ l := by
  induction l with
  | nil => simpa [aset] using hp
  | cons hd tl ih =>
      obtain ⟨k', v'⟩ := hd
      by_cases h : k' = k
      · subst h
        simp only [aset_cons, if_pos rfl] at hp
        rcases List.mem_cons.mp hp with h1 | h1
        · exact Or.inl h1
        · exact Or.inr (List.mem_cons_of_mem _ h1)
      · simp only [aset_cons, if_neg h] at hp
        rcases List.mem_cons.mp hp with h1 | h1
        · exact Or.inr (h1 ▸ List.mem_cons_self _ _)
        · rcases ih h1 with h2 | h2
          · exact Or.inl h2
          · exact Or.inr (List.mem_cons_of_mem _ h2)

theorem alookup_mem {κ α : Type} [DecidableEq κ] (l : List (κ × α)) (k : κ) (v : α)
    (h : alookup l k = some v) : (k, v) ∈ l := by
  induction l with
  | nil => simp at h
  | cons hd tl ih =>
      obtain ⟨k', v'⟩ := hd
      simp only [alookup_cons] at h
      split at h
      · rename_i heq
        subst heq
        injection h with h
        subst h
        exact List.mem_cons_self _ _
      · exact List.mem_cons_of_mem _ (ih h)

theorem getReputation_snd_inv (reps : Ledger) (email : String)
    (h : ledgerInv reps) : repInv (getReputation reps email).2 := by
  unfold getReputation
  by_cases he : email = ""
  · simp [he, repInv, zeroRep, REPORT_THRESHOLD, DISLIKE_THRESHOLD]
  · simp only [if_neg he]
    cases hl : alookup reps email with
    | none => simp [repInv, zeroRep, REPORT_THRESHOLD, DISLIKE_THRESHOLD]
    | some r => exact h _ (alookup_mem _ _ _ hl)

theorem bumpRecord_inv (r0 : Rep) (type : String) (h : repInv r0) :
    repInv (bumpRecord r0 type) := by
  unfold repInv REPORT_THRESHOLD DISLIKE_THRESHOLD at h ⊢
  unfold bumpRecord REPORT_THRESHOLD DISLIKE_THRESHOLD
  by_cases h1 : type = "like"
  · subst h1
    simp
    split <;> simp_all
  · by_cases h2 : type = "dislike"
    · subst h2
      simp
      split
      · simp_all
      · rename_i hcond
        push_neg at hcond
        have hold : ¬(3 ≤ r0.reports ∨ 10 ≤ r0.dislikes) := by omega
        simp_all
    · by_cases h3 : type = "report"
      · subst h3
        simp
        split
        · simp_all
        · rename_i hcond
          push_neg at hcond
          have hold : ¬(3 ≤ r0.reports ∨ 10 ≤ r0.dislikes) := by omega
          simp_all
      · simp only [if_neg h1, if_neg h2, if_neg h3]
        split <;> simp_all

theorem bumpRecord_monotone (r0 : Rep) (type : String) :
    repLe r0 (bumpRecord r0 type) := by
  unfold repLe bumpRecord
  by_cases h1 : type = "like"
  · subst h1
    simp
    split <;> simp_all
  · by_cases h2 : type = "dislike"
    · subst h2
      simp
      split <;> simp_all
    · by_cases h3 : type = "report"
      · subst h3
        simp
        split <;> simp_all
      · simp only [if_neg h1, if_neg h2, if_neg h3]
        split <;> simp_all

theorem getReputation_fst_inv (reps : Ledger) (email : String)
    (h : ledgerInv reps) : ledgerInv (getReputation reps email).1 := by
  unfold getReputation
  by_cases he : email = ""
  · simpa [he] using h
  · simp only [if_neg he]
    cases hl : alookup reps email with
    | none =>
        intro p hp
        rcases mem_aset _ _ _ _ hp with h1 | h1
        · subst h1; simp [repInv, zeroRep, REPORT_THRESHOLD, DISLIKE_THRESHOLD]
        · exact h _ h1
    | some r => exact h

theorem applyReaction_fst_inv (reps : Ledger) (email type : String)
    (h : ledgerInv reps) : ledgerInv (applyReaction reps email type).1 := by
  have h1 := getReputation_fst_inv reps email h
  have h2 := getReputation_snd_inv reps email h
  unfold applyReaction
  by_cases he : email = ""
  · simpa [he] using h1
  · simp only [if_neg he]
    intro p hp
    rcases mem_aset _ _ _ _ hp with h3 | h3
    · subst h3
      exact bumpRecord_inv _ _ h2
    · exact h1 _ h3

theorem applyReaction_snd_inv (reps : Ledger) (email type : String)
    (h : ledgerInv reps) : repInv (applyReaction reps email type).2 := by
  have h2 := getReputation_snd_inv reps email h
  unfold applyReaction
  split <;> exact bumpRecord_inv _ _ h2

theorem applyReaction_monotone (reps : Ledger) (email type : String) :
    repLe (getReputation reps email).2 (applyReaction reps email type).2 := by
  unfold applyReaction
  split <;> exact bumpRecord_monotone _ _

theorem ledgerAfter_inv (calls : List (String × String)) :
    ledgerInv (ledgerAfter calls) := by
  suffices h : ∀ reps, ledgerInv reps →
      ledgerInv (calls.foldl (fun reps c => (applyReaction reps c.1 c.2).1) reps) by
    exact h [] (by intro p hp; simp at hp)
  induction calls with
  | nil => intro reps h; simpa using h
  | cons c rest ih =>
      intro reps h
      exact ih _ (applyReaction_fst_inv reps c.1 c.2 h)

theorem lowerChar_idem (c : Char) : lowerChar (lowerChar c) = lowerChar c := by
  unfold lowerChar
  by_cases h : 65 ≤ c.toNat ∧ c.toNat ≤ 90
  · rw [if_pos h]
    have htn : (Char.ofNat (c.toNat + 32)).toNat = c.toNat + 32 := by
      obtain ⟨h1, h2⟩ := h
      set n := c.toNat with hn
      interval_cases n <;> decide
    rw [if_neg]
    omega
  · rw [if_neg h, if_neg h]

theorem lowerString_idem (s : String) : lowerString (lowerString s) = lowerString s := by
  unfold lowerString
  simp [List.map_map, Function.comp_def, lowerChar_idem]

theorem lowerString_ne_empty (s : String) (h : s ≠ "") : lowerString s ≠ "" := by
  unfold lowerString
  intro hc
  apply h
  cases s with
  | mk data =>
      cases data with
      | nil => rfl
      | cons c cs => simp_all [String.ext_iff]

/-- The sessions produced by the drain loop extend the accumulator:
nothing already stored is removed or reordered. -/
theorem drainQueue_sessions_extend (connected : List String)
    (profiles : List (String × Profile)) (mode : String) (now : Nat) :
    ∀ (q : List String) (nextId : Nat) (sessions : List (Nat × Session))
      (ems : List Emission),
      ∃ t, (drainQueue connected profiles mode now q nextId sessions ems).2.2.1
        = sessions ++ t
  | [], _, sessions, _ => ⟨[], by simp [drainQueue]⟩
  | [x], _, sessions, _ => ⟨[], by simp [drainQueue]⟩
  | x :: y :: rest, nextId, sessions, ems => by
      unfold drainQueue
      split
      · exact drainQueue_sessions_extend connected profiles mode now rest nextId
          sessions ems
      · obtain ⟨t, ht⟩ := drainQueue_sessions_extend connected profiles mode now rest
          (nextId + 1)
          (sessions ++ [(nextId,
            { id := nextId, mode := mode, participants := [x, y], startedAt := now })])
          (ems ++
            [(Target.toSock x, SEvent.matchPaired nextId mode
                (sanitizeProfile (alookup profiles y)) true),
             (Target.toSock y, SEvent.matchPaired nextId mode
                (sanitizeProfile (alookup profiles x)) false)])
        refine ⟨(nextId,
          { id := nextId, mode := mode, participants := [x, y], startedAt := now }) :: t, ?_⟩
        simpa using ht

@[simp] theorem setQueue_reputations (st : ServerState) (mode : String) (q : List String) :
    (setQueue st mode q).reputations = st.reputations := by
  unfold setQueue; split <;> [rfl; split <;> rfl]

@[simp] theorem setQueue_sessions (st : ServerState) (mode : String) (q : List String) :
    (setQueue st mode q).sessions = st.sessions := by
  unfold setQueue; split <;> [rfl; split <;> rfl]

@[simp] theorem setQueue_emailToSockets (st : ServerState) (mode : String) (q : List String) :
    (setQueue st mode q).emailToSockets = st.emailToSockets := by
  unfold setQueue; split <;> [rfl; split <;> rfl]

@[simp] theorem setQueue_profiles (st : ServerState) (mode : String) (q : List String) :
    (setQueue st mode q).profiles = st.profiles := by
  unfold setQueue; split <;> [rfl; split <;> rfl]

@[simp] theorem setQueue_modes (st : ServerState) (mode : String) (q : List String) :
    (setQueue st mode q).modes = st.modes := by
  unfold setQueue; split <;> [rfl; split <;> rfl]

@[simp] theorem setQueue_connected (st : ServerState) (mode : String) (q : List String) :
    (setQueue st mode q).connected = st.connected := by
  unfold setQueue; split <;> [rfl; split <;> rfl]

@[simp] theorem setQueue_nextId (st : ServerState) (mode : String) (q : List String) :
    (setQueue st mode q).nextId = st.nextId := by
  unfold setQueue; split <;> [rfl; split <;> rfl]

@[simp] theorem attemptPair_emailToSockets (st : ServerState) (mode : String) (now : Nat) :
    (attemptPair st mode now).1.emailToSockets = st.emailToSockets := by
  unfold attemptPair
  cases getQueue st mode with
  | none => rfl
  | some q => simp

@[simp] theorem attemptPair_reputations (st : ServerState) (mode : String) (now : Nat) :
    (attemptPair st mode now).1.reputations = st.reputations := by
  unfold attemptPair
  cases getQueue st mode with
  | none => rfl
  | some q => simp

@[simp] theorem attemptPair_profiles (st : ServerState) (mode : String) (now : Nat) :
    (attemptPair st mode now).1.profiles = st.profiles := by
  unfold attemptPair
  cases getQueue st mode with
  | none => rfl
  | some q => simp

@[simp] theorem attemptPair_connected (st : ServerState) (mode : String) (now : Nat) :
    (attemptPair st mode now).1.connected = st.connected := by
  unfold attemptPair
  cases getQueue st mode with
  | none => rfl
  | some q => simp

@[simp] theorem endSession_emailToSockets (st : ServerState) (sid : Nat) (l : String) :
    (endSession st sid l).1.emailToSockets = st.emailToSockets := by
  unfold endSession
  cases alookup st.sessions sid <;> rfl

@[simp] theorem endSession_connected (st : ServerState) (sid : Nat) (l : String) :
    (endSession st sid l).1.connected = st.connected := by
  unfold endSession
  cases alookup st.sessions sid <;> rfl

@[simp] theorem endSession_queues (st : ServerState) (sid : Nat) (l : String) :
    (endSession st sid l).1.textQueue = st.textQueue ∧
    (endSession st sid l).1.videoQueue = st.videoQueue := by
  unfold endSession
  cases alookup st.sessions sid <;> exact ⟨rfl, rfl⟩

@[simp] theorem relayToSessionPeer_state (st : ServerState) (sid : Nat)
    (sender event payload : String) :
    (relayToSessionPeer st sid sender event payload).1 = st := by
  unfold relayToSessionPeer
  cases alookup st.sessions sid with
  | none => rfl
  | some session =>
      simp only []
      split
      · cases session.participants.find? (fun id => id != sender) <;> rfl
      · rfl

/-- The chat relay never mutates the server state. -/
theorem chatTextMessage_state (st : ServerState) (sock : String) (sid : Option Nat)
    (body fromUser : String) (ts : Option Nat) (now : Nat) :
    (step st sock (.chatTextMessage sid body fromUser ts) now).1 = st := by
  simp only [step]
  cases sid with
  | none => rfl
  | some s =>
      simp only []
      split
      · rfl
      · cases alookup st.sessions s with
        | none => rfl
        | some session =>
            simp only []
            split
            · cases session.participants.find? (fun id => id != sock) <;> rfl
            · rfl

/-- `match:request` never touches the identity registry. -/
theorem matchRequest_emailToSockets (st : ServerState) (sock mode : String) (now : Nat) :
    (step st sock (.matchRequest mode) now).1.emailToSockets = st.emailToSockets := by
  simp only [step]
  cases getQueue st mode with
  | none => rfl
  | some q =>
      simp only []
      cases alookup st.profiles sock with
      | none => rfl
      | some profile =>
          simp only []
          split
          · rfl
          · simp [removeFromQueues]

/-- `chat:leave` never touches the identity registry. -/
theorem chatLeave_emailToSockets (st : ServerState) (sock : String) (sid : Option Nat)
    (now : Nat) :
    (step st sock (.chatLeave sid) now).1.emailToSockets = st.emailToSockets := by
  simp only [step]
  cases sid with
  | none =>
      simp only []
      cases findSessionBySocket st.sessions sock <;> simp [removeFromQueues]
  | some s =>
      simp only []
      split
      · simp [removeFromQueues]
      · cases findSessionBySocket st.sessions sock <;> simp [removeFromQueues]

/-- `profile:reaction` only touches the reputation ledger. -/
theorem profileReaction_emailToSockets (st : ServerState) (sock target type : String)
    (sid : Option Nat) (now : Nat) :
    (step st sock (.profileReaction target type sid) now).1.emailToSockets
      = st.emailToSockets := by
  simp only [step]
  split <;> rfl

theorem emailHas_register_self (m : List (String × List String)) (sock e : String)
    (he : e ≠ "") :
    emailHas (registerSocketForEmail m sock e) (lowerString e) sock = true := by
  unfold registerSocketForEmail
  rw [if_neg he]
  simp only []
  cases hl : alookup m (lowerString e) with
  | none =>
      unfold emailHas
      simp [alookup_aset]
  | some socks =>
      unfold emailHas
      simp only [alookup_aset]
      by_cases hmem : sock ∈ socks
      · simp [hmem]
      · simp [hmem]

theorem emailHas_register_mono (m : List (String × List String)) (sock e e' h : String)
    (hm : emailHas m e' h = true) :
    emailHas (registerSocketForEmail m sock e) e' h = true := by
  unfold registerSocketForEmail
  by_cases he : e = ""
  · rwa [if_pos he]
  · rw [if_neg he]
    simp only []
    unfold emailHas at hm ⊢
    by_cases hkey : lowerString e = e'
    · subst hkey
      cases hl : alookup m (lowerString e) with
      | none => rw [hl] at hm; exact absurd hm (by simp)
      | some socks =>
          rw [hl] at hm
          simp only [hl, alookup_aset]
          simp only [List.contains_eq_any_beq, List.any_eq_true, beq_iff_eq] at hm ⊢
          obtain ⟨x, hx, hxe⟩ := hm
          subst hxe
          split
          · exact ⟨h, hx, rfl⟩
          · exact ⟨h, List.mem_append_left _ hx, rfl⟩
    · cases hl : alookup m (lowerString e) with
      | none => rwa [alookup_aset_ne _ _ _ _ hkey]
      | some socks =>
          simp only []
          rwa [alookup_aset_ne _ _ _ _ hkey]

theorem emailHas_unregister_self (m : List (String × List String)) (sock e : String) :
    emailHas (unregisterSocket m sock) e sock = false := by
  unfold emailHas
  cases hl : alookup (unregisterSocket m sock) e with
  | none => rfl
  | some socks =>
      have hmem := alookup_mem _ _ _ hl
      unfold unregisterSocket at hmem
      simp only [List.mem_filter, List.mem_map] at hmem
      obtain ⟨⟨p, _, hp⟩, _⟩ := hmem
      have hsnd : socks = p.2.filter (fun id => id != sock) := by
        have := congrArg Prod.snd hp
        simpa using this.symm
      subst hsnd
      simp [List.mem_filter]

theorem webrtcOffer_state (st : ServerState) (s : String) (sid : Option Nat)
    (d : String) (now : Nat) : (step st s (.webrtcOffer sid d) now).1 = st := by
  simp only [step]
  cases sid with
  | none => rfl
  | some x =>
      simp only []
      split
      · rfl
      · simp

theorem webrtcAnswer_state (st : ServerState) (s : String) (sid : Option Nat)
    (d : String) (now : Nat) : (step st s (.webrtcAnswer sid d) now).1 = st := by
  simp only [step]
  cases sid with
  | none => rfl
  | some x =>
      simp only []
      split
      · rfl
      · simp

theorem webrtcIce_state (st : ServerState) (s : String) (sid : Option Nat)
    (c : Option String) (now : Nat) : (step st s (.webrtcIce sid c) now).1 = st := by
  simp only [step]
  cases sid with
  | none => rfl
  | some x => cases c with
      | none => rfl
      | some cand => simp

/-- C2: for every sequence of `applyReaction` calls starting from the
empty ledger, every stored record satisfies
`banned == (reports >= 3 || dislikes >= 10)`, and each further
`applyReaction` call never decreases any counter of the touched record
and never reverts `banned` from `true` to `false`. -/
theorem claim2_reputation_invariant_and_monotonic :
    ∀ calls : List (String × String),
      (∀ e r, alookup (ledgerAfter calls) e = some r →
        r.banned = decide (REPORT_THRESHOLD ≤ r.reports ∨ DISLIKE_THRESHOLD ≤ r.dislikes)) ∧
      (∀ email type,
        repLe (getReputation (ledgerAfter calls) email).2
          (applyReaction (ledgerAfter calls) email type).2) := by
  intro calls
  constructor
  · intro e r hl
    exact ledgerAfter_inv calls _ (alookup_mem _ _ _ hl)
  · intro email type
    exact applyReaction_monotone _ email type

/-- Witness for C2 at a concrete two-call sequence. -/
theorem claim2_witness :
    ({ likes := 0, dislikes := 1, reports := 1, banned := false } : Rep).banned =
      decide (REPORT_THRESHOLD ≤
          ({ likes := 0, dislikes := 1, reports := 1, banned := false } : Rep).reports ∨
        DISLIKE_THRESHOLD ≤
          ({ likes := 0, dislikes := 1, reports := 1, banned := false } : Rep).dislikes) :=
  (claim2_reputation_invariant_and_monotonic
      [("a@x.edu", "report"), ("a@x.edu", "dislike")]).1 "a@x.edu" _ (by decide)

/-- C9 counterexample: reading an unseen email through `getReputation`
(the operation behind `GET /reputation/:email`) does return the
zero-valued record, but it inserts a fresh entry into the ledger — the
ledger's state is not left unchanged as the claim requires. -/
theorem claim9_counterexample :
    (reputationEndpoint [] "A@x.edu").2 = zeroRep ∧
    (reputationEndpoint [] "A@x.edu").1 ≠ [] ∧
    (getReputation [] "a@x.edu").1 = [("a@x.edu", zeroRep)] := by decide

/-- C9 amended: `get` returns the stored record unchanged for a seen
non-empty email and the zero record for an unseen one; but a read of an
unseen non-empty email *creates* its ledger entry (only the empty email
leaves the ledger untouched). -/
theorem claim9_get_amended :
    ∀ (reps : Ledger) (email : String),
      (email ≠ "" → ∀ r, alookup reps email = some r →
        getReputation reps email = (reps, r)) ∧
      (alookup reps email = none → (getReputation reps email).2 = zeroRep) ∧
      (email = "" → getReputation reps email = (reps, zeroRep)) ∧
      (email ≠ "" → alookup reps email = none →
        (getReputation reps email).1 = aset reps email zeroRep) := by
  intro reps email
  refine ⟨?_, ?_, ?_, ?_⟩
  · intro he r hl
    unfold getReputation
    rw [if_neg he, hl]
  · intro hl
    unfold getReputation
    by_cases he : email = ""
    · rw [if_pos he]
    · rw [if_neg he, hl]
  · intro he
    unfold getReputation
    rw [if_pos he]
  · intro he hl
    unfold getReputation
    rw [if_neg he, hl]

/-- Witness for C9 amended at concrete ledgers. -/
theorem claim9_get_amended_witness :
    getReputation [("b@x.edu", zeroRep)] "b@x.edu" = ([("b@x.edu", zeroRep)], zeroRep) ∧
    (getReputation [] "a@x.edu").1 = aset [] "a@x.edu" zeroRep :=
  ⟨(claim9_get_amended [("b@x.edu", zeroRep)] "b@x.edu").1 (by decide) zeroRep (by decide),
   (claim9_get_amended [] "a@x.edu").2.2.2 (by decide) (by decide)⟩

/-- C6 counterexample: a `profile:reaction` whose sessionId resolves to
no session (the session map is empty) is *not* dropped: the reputation
ledger is mutated and events are emitted. -/
theorem claim6_counterexample :
    (initState ["A"]).sessions = [] ∧
    alookup (initState ["A"]).sessions 99 = none ∧
    (step (initState ["A"]) "A" (.profileReaction "b@x.edu" "report" (some 99)) 0).1.reputations
      = [("b@x.edu", { likes := 0, dislikes := 0, reports := 1, banned := false })] ∧
    (step (initState ["A"]) "A" (.profileReaction "b@x.edu" "report" (some 99)) 0).2 ≠ [] := by
  decide

/-- C6 amended: the reaction handler is not session-gated.  Whenever
`target` and `type` are non-empty it ignores the supplied sessionId
entirely, mutates the ledger via `applyReaction`, and broadcasts — no
session lookup or membership check is performed; only a missing target
or type makes it drop the event. -/
theorem claim6_reaction_not_session_gated :
    ∀ (st : ServerState) (sock target type : String) (sid : Option Nat) (now : Nat),
      ¬(target = "" ∨ type = "") →
      step st sock (.profileReaction target type sid) now
        = step st sock (.profileReaction target type none) now ∧
      (step st sock (.profileReaction target type sid) now).1
        = { st with
              reputations := (applyReaction st.reputations (lowerString target) type).1 } ∧
      (step st sock (.profileReaction target type sid) now).2 ≠ [] := by
  intro st sock target type sid now hne
  refine ⟨rfl, ?_, ?_⟩
  · simp only [step]
    rw [if_neg hne]
  · simp only [step]
    rw [if_neg hne]
    simp

/-- Witness for C6 amended on a concrete state. -/
theorem claim6_amended_witness :
    ¬(("b@x.edu" : String) = "" ∨ ("report" : String) = "") ∧
    (step (initState ["A"]) "A" (.profileReaction "b@x.edu" "report" (some 5)) 0).1
      = { initState ["A"] with
            reputations := (applyReaction (initState ["A"]).reputations
              (lowerString "b@x.edu") "report").1 } :=
  ⟨by decide,
   (claim6_reaction_not_session_gated (initState ["A"]) "A" "b@x.edu" "report"
      (some 5) 0 (by decide)).2.1⟩

/-- C7 counterexample: queue `[D, A, B]` with `D` stale and `A`, `B`
live.  The drain pops `(D, A)`, sees `D` stale, and discards *both*; it
then stops with `[B]` left, so the live entries `A` and `B` are never
paired — a stale partner did prevent the remaining live entries from
being paired, and the live handle popped alongside the stale one is
lost. -/
theorem claim7_counterexample :
    "A" ∈ ({ initState ["A", "B"] with textQueue := ["D", "A", "B"] } : ServerState).connected ∧
    "B" ∈ ({ initState ["A", "B"] with textQueue := ["D", "A", "B"] } : ServerState).connected ∧
    "D" ∉ ({ initState ["A", "B"] with textQueue := ["D", "A", "B"] } : ServerState).connected ∧
    (attemptPair { initState ["A", "B"] with textQueue := ["D", "A", "B"] } "text" 0).1.sessions
      = [] ∧
    (attemptPair { initState ["A", "B"] with textQueue := ["D", "A", "B"] } "text" 0).1.textQueue
      = ["B"] := by decide

/-- C7 amended: when either popped handle is stale, the drain discards
*both* popped entries without re-enqueueing (the live one is lost) and
continues with the rest of the queue, so entries still in the queue keep
being drained: a live pair at the head of the remainder is paired next. -/
theorem claim7_drain_discards_both :
    ∀ (connected : List String) (profiles : List (String × Profile)) (mode : String)
      (now : Nat) (x y : String) (rest : List String) (nextId : Nat)
      (sessions : List (Nat × Session)) (ems : List Emission),
      (x ∉ connected ∨ y ∉ connected) →
      drainQueue connected profiles mode now (x :: y :: rest) nextId sessions ems
        = drainQueue connected profiles mode now rest nextId sessions ems ∧
      (∀ a b rest2, rest = a :: b :: rest2 → a ∈ connected → b ∈ connected →
        ∃ t, (drainQueue connected profiles mode now (x :: y :: rest) nextId sessions
                ems).2.2.1
          = sessions ++
              (nextId, { id := nextId, mode := mode, participants := [a, b],
                         startedAt := now }) :: t) := by
  intro connected profiles mode now x y rest nextId sessions ems hstale
  have hdrop : drainQueue connected profiles mode now (x :: y :: rest) nextId sessions ems
      = drainQueue connected profiles mode now rest nextId sessions ems := by
    rw [drainQueue]
    rw [if_pos (by tauto)]
  refine ⟨hdrop, ?_⟩
  intro a b rest2 hrest ha hb
  subst hrest
  rw [hdrop, drainQueue, if_neg (by tauto)]
  obtain ⟨t, ht⟩ := drainQueue_sessions_extend connected profiles mode now rest2
    (nextId + 1)
    (sessions ++ [(nextId,
      { id := nextId, mode := mode, participants := [a, b], startedAt := now })])
    (ems ++
      [(Target.toSock a, SEvent.matchPaired nextId mode
          (sanitizeProfile (alookup profiles b)) true),
       (Target.toSock b, SEvent.matchPaired nextId mode
          (sanitizeProfile (alookup profiles a)) false)])
  exact ⟨t, by simpa using ht⟩

/-- Witness for C7 amended: stale `D` popped with live `A`; the drain
continues on the rest of the queue. -/
theorem claim7_amended_witness :
    drainQueue ["A", "B", "C"] [] "text" 0 ["D", "A", "B", "C"] 0 [] []
      = drainQueue ["A", "B", "C"] [] "text" 0 ["B", "C"] 0 [] [] :=
  (claim7_drain_discards_both ["A", "B", "C"] [] "text" 0 "D" "A" ["B", "C"] 0 [] []
    (by decide)).1

/-- C8: relaying a chat message forwards `body` and `from` verbatim to
the other participant and stamps the server's current time as the
timestamp, whatever timestamp the client supplied (the handler never
reads it); the stamp equals the forwarding time, hence is not earlier
than the send time. -/
theorem claim8_chat_server_timestamp :
    ∀ (st : ServerState) (sid : Nat) (sess : Session) (a b body fromUser : String)
      (clientTs : Option Nat) (now : Nat),
      alookup st.sessions sid = some sess →
      sess.participants = [a, b] → a ≠ b → body ≠ "" →
      step st a (.chatTextMessage (some sid) body fromUser clientTs) now
        = (st, [(Target.toSock b, SEvent.chatMessage sid body fromUser now)]) ∧
      step st b (.chatTextMessage (some sid) body fromUser clientTs) now
        = (st, [(Target.toSock a, SEvent.chatMessage sid body fromUser now)]) := by
  intro st sid sess a b body fromUser clientTs now hl hp hne hbody
  constructor <;>
  · simp only [step, hl, hp, if_neg hbody]
    simp [List.find?_cons, hne, Ne.symm hne]

/-- Witness for C8 on a concrete session. -/
theorem claim8_witness :
    step { initState ["A", "B"] with
        sessions := [(7, { id := 7, mode := "text", participants := ["A", "B"],
                           startedAt := 0 })] } "A"
      (.chatTextMessage (some 7) "hello" "alice" (some 123456)) 42
      = ({ initState ["A", "B"] with
            sessions := [(7, { id := 7, mode := "text", participants := ["A", "B"],
                               startedAt := 0 })] },
         [(Target.toSock "B", SEvent.chatMessage 7 "hello" "alice" 42)]) :=
  (claim8_chat_server_timestamp
    { initState ["A", "B"] with
        sessions := [(7, { id := 7, mode := "text", participants := ["A", "B"],
                           startedAt := 0 })] }
    7 { id := 7, mode := "text", participants := ["A", "B"], startedAt := 0 }
    "A" "B" "hello" "alice" (some 123456) 42
    (by decide) (by decide) (by decide) (by decide)).1

/-- C10 (implicit): attaching a new profile never detaches a connection
from previously registered emails: (1) `profile:update` with a
non-empty email always leaves the socket registered under that email's
normalized key; (2) every handler other than `disconnect` preserves
every existing handle-set membership; (3) `disconnect` removes the
handle from every email's set; (4) hence after updating to `E1` and
then to a different `E2`, the socket is registered under both. -/
theorem claim10_profile_update_keeps_registrations :
    (∀ (st : ServerState) (s n e : String) (i : List String) (now : Nat), e ≠ "" →
      emailHas (step st s (.profileUpdate n e i) now).1.emailToSockets
        (lowerString e) s = true) ∧
    (∀ (st : ServerState) (s : String) (ev : CEvent) (now : Nat) (h e : String),
      ev ≠ .disconnect →
      emailHas st.emailToSockets e h = true →
      emailHas (step st s ev now).1.emailToSockets e h = true) ∧
    (∀ (st : ServerState) (s : String) (now : Nat) (e : String),
      emailHas (step st s .disconnect now).1.emailToSockets e s = false) ∧
    (∀ (st : ServerState) (s n1 e1 n2 e2 : String) (i1 i2 : List String) (t1 t2 : Nat),
      e1 ≠ "" → e2 ≠ "" →
      emailHas (step (step st s (.profileUpdate n1 e1 i1) t1).1 s
          (.profileUpdate n2 e2 i2) t2).1.emailToSockets (lowerString e1) s = true ∧
      emailHas (step (step st s (.profileUpdate n1 e1 i1) t1).1 s
          (.profileUpdate n2 e2 i2) t2).1.emailToSockets (lowerString e2) s = true) := by
  have hupd : ∀ (st : ServerState) (s n e : String) (i : List String) (now : Nat),
      (step st s (.profileUpdate n e i) now).1.emailToSockets
        = registerSocketForEmail st.emailToSockets s (lowerString e) := by
    intro st s n e i now
    simp only [step]
  have h1 : ∀ (st : ServerState) (s n e : String) (i : List String) (now : Nat), e ≠ "" →
      emailHas (step st s (.profileUpdate n e i) now).1.emailToSockets
        (lowerString e) s = true := by
    intro st s n e i now he
    rw [hupd]
    have hr := emailHas_register_self st.emailToSockets s (lowerString e)
      (lowerString_ne_empty e he)
    rwa [lowerString_idem] at hr
  have h2 : ∀ (st : ServerState) (s : String) (ev : CEvent) (now : Nat) (h e : String),
      ev ≠ .disconnect →
      emailHas st.emailToSockets e h = true →
      emailHas (step st s ev now).1.emailToSockets e h = true := by
    intro st s ev now h e hnd hm
    cases ev with
    | connect => exact hm
    | profileUpdate n em i =>
        rw [hupd]
        exact emailHas_register_mono _ _ _ _ _ hm
    | matchRequest mode => rwa [matchRequest_emailToSockets]
    | chatTextMessage sid body f ts => rwa [chatTextMessage_state]
    | chatLeave sid => rwa [chatLeave_emailToSockets]
    | profileReaction t ty sid => rwa [profileReaction_emailToSockets]
    | webrtcOffer sid d => rwa [webrtcOffer_state]
    | webrtcAnswer sid d => rwa [webrtcAnswer_state]
    | webrtcIce sid c => rwa [webrtcIce_state]
    | disconnect => exact absurd rfl hnd
  have h3 : ∀ (st : ServerState) (s : String) (now : Nat) (e : String),
      emailHas (step st s .disconnect now).1.emailToSockets e s = false := by
    intro st s now e
    simp only [step]
    exact emailHas_unregister_self _ _ _
  refine ⟨h1, h2, h3, ?_⟩
  intro st s n1 e1 n2 e2 i1 i2 t1 t2 he1 he2
  exact ⟨h2 _ _ _ _ _ _ (fun hx => CEvent.noConfusion hx) (h1 st s n1 e1 i1 t1 he1),
         h1 _ s n2 e2 i2 t2 he2⟩

/-- Witness for C10 at a concrete double profile update. -/
theorem claim10_witness :
    emailHas (step (step (initState ["A"]) "A" (.profileUpdate "a" "E1@x.edu" []) 0).1 "A"
        (.profileUpdate "a" "E2@x.edu" []) 1).1.emailToSockets
      (lowerString "E1@x.edu") "A" = true ∧
    emailHas (step (step (initState ["A"]) "A" (.profileUpdate "a" "E1@x.edu" []) 0).1 "A"
        (.profileUpdate "a" "E2@x.edu" []) 1).1.emailToSockets
      (lowerString "E2@x.edu") "A" = true :=
  claim10_profile_update_keeps_registrations.2.2.2 (initState ["A"]) "A" "a" "E1@x.edu"
    "a" "E2@x.edu" [] [] 0 1 (by decide) (by decide)

theorem alookup_filter_out {α : Type} (l : List (Nat × α)) (k : Nat) :
    alookup (l.filter (fun e => e.1 != k)) k = none := by
  induction l with
  | nil => rfl
  | cons hd tl ih =>
      obtain ⟨k', v⟩ := hd
      by_cases h : k' = k
      · subst h
        simpa using ih
      · simp only [List.filter_cons]
        have : (k' != k) = true := by simpa using h
        rw [this]
        simpa [alookup_cons, h] using ih

/-- `endSession` on a present session: drops it and notifies the
still-connected participants. -/
theorem endSession_spec (st : ServerState) (sid : Nat) (sess : Session) (l : String)
    (hl : alookup st.sessions sid = some sess) :
    endSession st sid l
      = ({ st with sessions := st.sessions.filter (fun e => e.1 != sid) },
         sess.participants.filterMap (fun pid =>
           if pid ∈ st.connected then
             some (Target.toSock pid,
               if pid = l then SEvent.sessionEnded sid else SEvent.partnerLeft sid)
           else none)) := by
  unfold endSession
  rw [hl]

/-- A chat relay whose sessionId resolves to no session is silently
dropped: no state change, no emission. -/
theorem chatTextMessage_drop (st : ServerState) (s : String) (sid : Nat)
    (body fromUser : String) (ts : Option Nat) (now : Nat)
    (h : alookup st.sessions sid = none) :
    step st s (.chatTextMessage (some sid) body fromUser ts) now = (st, []) := by
  simp only [step]
  split
  · rfl
  · rw [h]

/-- A signaling relay whose sessionId resolves to no session is
silently dropped. -/
theorem webrtcOffer_drop (st : ServerState) (s : String) (sid : Nat) (d : String)
    (now : Nat) (h : alookup st.sessions sid = none) :
    step st s (.webrtcOffer (some sid) d) now = (st, []) := by
  simp only [step]
  split
  · rfl
  · unfold relayToSessionPeer
    rw [h]

/-- C5: for a session `[a, b]`, `a` disconnecting delivers exactly one
`system:partner-left` to `b` (and nothing else); `a` leaving explicitly
delivers `system:session-ended` to `a` and `system:partner-left` to `b`
— two distinct event kinds for the same teardown; in both cases the
session registry no longer holds the sessionId afterwards, and a
subsequent chat or signaling relay carrying it is silently dropped. -/
theorem claim5_teardown_notifications :
    ∀ (st : ServerState) (sid : Nat) (sess : Session) (a b : String) (now : Nat),
      alookup st.sessions sid = some sess →
      findSessionBySocket st.sessions a = some (sid, sess) →
      sess.participants = [a, b] →
      a ≠ b → a ∈ st.connected → b ∈ st.connected →
      ((step st a .disconnect now).2 = [(Target.toSock b, SEvent.partnerLeft sid)] ∧
       alookup (step st a .disconnect now).1.sessions sid = none ∧
       (∀ (body fromUser : String) (ts : Option Nat) (now2 : Nat),
         step (step st a .disconnect now).1 b
             (.chatTextMessage (some sid) body fromUser ts) now2
           = ((step st a .disconnect now).1, [])) ∧
       (∀ (d : String) (now2 : Nat),
         step (step st a .disconnect now).1 b (.webrtcOffer (some sid) d) now2
           = ((step st a .disconnect now).1, []))) ∧
      ((step st a (.chatLeave (some sid)) now).2
         = [(Target.toSock a, SEvent.sessionEnded sid),
            (Target.toSock b, SEvent.partnerLeft sid)] ∧
       alookup (step st a (.chatLeave (some sid)) now).1.sessions sid = none) := by
  intro st sid sess a b now hl hfind hp hne hac hbc
  have hba : b ≠ a := Ne.symm hne
  -- the state after the transport dropped `a`
  have hdisc : step st a CEvent.disconnect now
      = ({ (removeFromQueues
              { st with connected := st.connected.filter (fun id => id != a) } a) with
            sessions := st.sessions.filter (fun e => e.1 != sid)
            emailToSockets := unregisterSocket st.emailToSockets a },
         [(Target.toSock b, SEvent.partnerLeft sid)]) := by
    simp only [step]
    rw [show findSessionBySocket
          (removeFromQueues
            { st with connected := st.connected.filter (fun id => id != a) } a).sessions a
        = some (sid, sess) from hfind]
    simp only []
    rw [endSession_spec _ sid sess a
        (show alookup (removeFromQueues
            { st with connected := st.connected.filter (fun id => id != a) } a).sessions sid
          = some sess from hl)]
    simp [removeFromQueues, hp, List.filterMap_cons, List.mem_filter, hba, hbc]
  have hleave : step st a (.chatLeave (some sid)) now
      = (removeFromQueues
           { st with sessions := st.sessions.filter (fun e => e.1 != sid) } a,
         [(Target.toSock a, SEvent.sessionEnded sid),
          (Target.toSock b, SEvent.partnerLeft sid)]) := by
    simp only [step]
    rw [show alookup st.sessions sid = some sess from hl]
    simp only [Option.isSome_some, if_true]
    rw [endSession_spec _ sid sess a hl]
    simp [removeFromQueues, hp, List.filterMap_cons, hac, hbc, hba]
  refine ⟨⟨?_, ?_, ?_, ?_⟩, ?_, ?_⟩
  · rw [hdisc]
  · rw [hdisc]
    exact alookup_filter_out _ _
  · intro body fromUser ts now2
    apply chatTextMessage_drop
    rw [hdisc]
    exact alookup_filter_out _ _
  · intro d now2
    apply webrtcOffer_drop
    rw [hdisc]
    exact alookup_filter_out _ _
  · rw [hleave]
  · rw [hleave]
    simpa [removeFromQueues] using alookup_filter_out st.sessions sid

/-- Witness for C5 on a concrete two-party session. -/
theorem claim5_witness :
    (step { initState ["A", "B"] with
        sessions := [(7, { id := 7, mode := "text", participants := ["A", "B"],
                           startedAt := 0 })] } "A" .disconnect 10).2
      = [(Target.toSock "B", SEvent.partnerLeft 7)] ∧
    (step { initState ["A", "B"] with
        sessions := [(7, { id := 7, mode := "text", participants := ["A", "B"],
                           startedAt := 0 })] } "A" (.chatLeave (some 7)) 10).2
      = [(Target.toSock "A", SEvent.sessionEnded 7),
         (Target.toSock "B", SEvent.partnerLeft 7)] :=
  ⟨(claim5_teardown_notifications
      { initState ["A", "B"] with
          sessions := [(7, { id := 7, mode := "text", participants := ["A", "B"],
                             startedAt := 0 })] }
      7 { id := 7, mode := "text", participants := ["A", "B"], startedAt := 0 }
      "A" "B" 10 (by decide) (by decide) (by decide) (by decide) (by decide)
      (by decide)).1.1,
   (claim5_teardown_notifications
      { initState ["A", "B"] with
          sessions := [(7, { id := 7, mode := "text", participants := ["A", "B"],
                             startedAt := 0 })] }
      7 { id := 7, mode := "text", participants := ["A", "B"], startedAt := 0 }
      "A" "B" 10 (by decide) (by decide) (by decide) (by decide) (by decide)
      (by decide)).2.1⟩

/-- C4 counterexample: the ban gate is only checked at `match:request`
time.  `A` (email `a@x.edu`) queues while clean; the email is then
banned by three reports, yet `A` stays in the text queue; when `C`
requests a match, a session with the banned email's handle is created
*after* the ban — so a banned email can appear in a queue and as a
participant of a session created thereafter. -/
theorem claim4_counterexample :
    (let st6 := (runEvents (initState ["A", "B", "C"])
        [("A", .profileUpdate "a" "a@x.edu" [], 0),
         ("C", .profileUpdate "c" "c@x.edu" [], 1),
         ("A", .matchRequest "text", 2),
         ("B", .profileReaction "a@x.edu" "report" none, 3),
         ("B", .profileReaction "a@x.edu" "report" none, 4),
         ("B", .profileReaction "a@x.edu" "report" none, 5)]).1
     alookup st6.profiles "A"
        = some { name := "a", email := "a@x.edu", interests := [] } ∧
     (getReputation st6.reputations "a@x.edu").2.banned = true ∧
     st6.textQueue = ["A"] ∧
     (runEvents st6 [("C", .matchRequest "text", 6)]).1.sessions.map
        (fun e => e.2.participants) = [["A", "C"]] ∧
     (getReputation (runEvents st6 [("C", .matchRequest "text", 6)]).1.reputations
        "a@x.edu").2.banned = true) := by decide

/-- C4 amended: a handle whose profile email is banned *at the moment it
sends `match:request`* gets exactly the `system:banned` notice and the
server state is left completely unchanged (in particular it is not
enqueued); however the gate is not retroactive: an entry enqueued before
its email was banned stays in the queue and can still be paired. -/
theorem claim4_ban_gate :
    ∀ (st : ServerState) (sock mode : String) (profile : Profile) (now : Nat),
      getQueue st mode ≠ none →
      alookup st.profiles sock = some profile →
      (getReputation st.reputations profile.email).2.banned = true →
      step st sock (.matchRequest mode) now
        = (st, [(Target.toSock sock,
            SEvent.systemBanned (getReputation st.reputations profile.email).2)]) := by
  intro st sock mode profile now hq hp hb
  have hfix : (getReputation st.reputations profile.email).1 = st.reputations := by
    unfold getReputation at hb ⊢
    by_cases he : profile.email = ""
    · rw [if_pos he] at hb
      exact absurd hb (by simp [zeroRep])
    · rw [if_neg he] at hb ⊢
      cases hl : alookup st.reputations profile.email with
      | none =>
          rw [hl] at hb
          exact absurd hb (by simp [zeroRep])
      | some r => rfl
  simp only [step]
  cases hgq : getQueue st mode with
  | none => exact absurd hgq hq
  | some q =>
      simp only []
      rw [hp]
      simp only []
      rw [if_pos hb, hfix]

/-- Witness for C4 amended on a concrete banned state. -/
theorem claim4_witness :
    step { initState ["A"] with
        reputations := [("a@x.edu",
          { likes := 0, dislikes := 0, reports := 3, banned := true })],
        profiles := [("A", { name := "a", email := "a@x.edu", interests := [] })] }
      "A" (.matchRequest "text") 5
      = ({ initState ["A"] with
            reputations := [("a@x.edu",
              { likes := 0, dislikes := 0, reports := 3, banned := true })],
            profiles := [("A", { name := "a", email := "a@x.edu", interests := [] })] },
         [(Target.toSock "A", SEvent.systemBanned
            (getReputation [("a@x.edu",
              { likes := 0, dislikes := 0, reports := 3, banned := true })]
              "a@x.edu").2)]) :=
  claim4_ban_gate
    { initState ["A"] with
        reputations := [("a@x.edu",
          { likes := 0, dislikes := 0, reports := 3, banned := true })],
        profiles := [("A", { name := "a", email := "a@x.edu", interests := [] })] }
    "A" "text" { name := "a", email := "a@x.edu", interests := [] } 5
    (by decide) (by decide) (by decide)

@[simp] theorem getQueue_text (st : ServerState) :
    getQueue st "text" = some st.textQueue := rfl

@[simp] theorem setQueue_text (st : ServerState) (q : List String) :
    setQueue st "text" q = { st with textQueue := q } := rfl

@[simp] theorem drainQueue_nil (c : List String) (p : List (String × Profile))
    (m : String) (now : Nat) (n : Nat) (s : List (Nat × Session)) (e : List Emission) :
    drainQueue c p m now [] n s e = ([], n, s, e) := rfl

@[simp] theorem drainQueue_one (c : List String) (p : List (String × Profile))
    (m : String) (now : Nat) (x : String) (n : Nat) (s : List (Nat × Session))
    (e : List Emission) :
    drainQueue c p m now [x] n s e = ([x], n, s, e) := rfl

/-- Draining a queue of exactly two live entries mints one session. -/
theorem drainQueue_pair (c : List String) (p : List (String × Profile)) (m : String)
    (now : Nat) (a b : String) (n : Nat) (s : List (Nat × Session)) (e : List Emission)
    (ha : a ∈ c) (hb : b ∈ c) :
    drainQueue c p m now [a, b] n s e
      = ([], n + 1,
         s ++ [(n, { id := n, mode := m, participants := [a, b], startedAt := now })],
         e ++ [(Target.toSock a, SEvent.matchPaired n m (sanitizeProfile (alookup p b)) true),
               (Target.toSock b, SEvent.matchPaired n m (sanitizeProfile (alookup p a)) false)]) := by
  rw [drainQueue]
  rw [if_neg (by simp [ha, hb])]
  rfl

theorem getReputation_banned_false (reps : Ledger) (email : String) (h : noBans reps) :
    (getReputation reps email).2.banned = false := by
  unfold getReputation
  by_cases he : email = ""
  · simp [he, zeroRep]
  · simp only [if_neg he]
    cases hl : alookup reps email with
    | none => simp [zeroRep]
    | some r => exact h _ (alookup_mem _ _ _ hl)

theorem getReputation_noBans (reps : Ledger) (email : String) (h : noBans reps) :
    noBans (getReputation reps email).1 := by
  unfold getReputation
  by_cases he : email = ""
  · simpa [he] using h
  · simp only [if_neg he]
    cases hl : alookup reps email with
    | none =>
        intro p hp
        rcases mem_aset _ _ _ _ hp with h1 | h1
        · subst h1; simp [zeroRep]
        · exact h _ h1
    | some r => exact h

/-- C1: with four distinct live handles requesting a match for the same
mode in order h1, h2, h3, h4 (fresh ledger, empty queues, no
disconnects), the pairing engine forms exactly the sessions (h1,h2) and
then (h3,h4) — strict FIFO consumption from the head of the mode's
queue, never a pair that skips an older waiting entry. -/
theorem claim1_fifo_pairing :
    ∀ (h1 h2 h3 h4 : String) (p1 p2 p3 p4 : Profile)
      (es : List (String × List String)) (profs : List (String × Profile))
      (ms : List (String × String)) (conn : List String) (n : Nat)
      (t1 t2 t3 t4 : Nat),
      [h1, h2, h3, h4].Nodup →
      h1 ∈ conn → h2 ∈ conn → h3 ∈ conn → h4 ∈ conn →
      alookup profs h1 = some p1 → alookup profs h2 = some p2 →
      alookup profs h3 = some p3 → alookup profs h4 = some p4 →
      (runEvents
        { reputations := [], textQueue := [], videoQueue := [], sessions := [],
          emailToSockets := es, profiles := profs, modes := ms, connected := conn,
          nextId := n }
        [(h1, .matchRequest "text", t1), (h2, .matchRequest "text", t2),
         (h3, .matchRequest "text", t3), (h4, .matchRequest "text", t4)]).1.sessions.map
        (fun e => e.2.participants) = [[h1, h2], [h3, h4]] := by
  intro h1 h2 h3 h4 p1 p2 p3 p4 es profs ms conn n t1 t2 t3 t4 hnd hc1 hc2 hc3 hc4
    hp1 hp2 hp3 hp4
  have h12 : h1 ≠ h2 := by simp [List.nodup_cons] at hnd; tauto
  have h34 : h3 ≠ h4 := by simp [List.nodup_cons] at hnd; tauto
  have hnb0 : noBans [] := by intro p hp; simp at hp
  have hnb1 := getReputation_noBans [] p1.email hnb0
  have hnb2 := getReputation_noBans _ p2.email hnb1
  have hnb3 := getReputation_noBans _ p3.email hnb2
  have hb1 := getReputation_banned_false [] p1.email hnb0
  have hb2 := getReputation_banned_false _ p2.email hnb1
  have hb3 := getReputation_banned_false _ p3.email hnb2
  have hb4 := getReputation_banned_false _ p4.email hnb3
  simp only [runEvents]
  have e1 : (step
        { reputations := [], textQueue := [], videoQueue := [], sessions := [],
          emailToSockets := es, profiles := profs, modes := ms, connected := conn,
          nextId := n } h1 (.matchRequest "text") t1).1
      = { reputations := (getReputation [] p1.email).1, textQueue := [h1],
          videoQueue := [], sessions := [],
          emailToSockets := es, profiles := profs, modes := aset ms h1 "text",
          connected := conn, nextId := n } := by
    simp only [step, getQueue_text, hp1]
    simp only [hb1, Bool.false_eq_true, if_false]
    simp [removeFromQueues, attemptPair]
  rw [e1]
  have e2 : (step
        { reputations := (getReputation [] p1.email).1, textQueue := [h1],
          videoQueue := [], sessions := [],
          emailToSockets := es, profiles := profs, modes := aset ms h1 "text",
          connected := conn, nextId := n } h2 (.matchRequest "text") t2).1
      = { reputations := (getReputation (getReputation [] p1.email).1 p2.email).1,
          textQueue := [], videoQueue := [],
          sessions := [(n, { id := n, mode := "text", participants := [h1, h2],
                             startedAt := t2 })],
          emailToSockets := es, profiles := profs,
          modes := aset (aset ms h1 "text") h2 "text",
          connected := conn, nextId := n + 1 } := by
    have hbne : (h1 != h2) = true := by simpa using h12
    simp only [step, getQueue_text, hp2]
    simp only [hb2, Bool.false_eq_true, if_false]
    simp [removeFromQueues, attemptPair, setQueue_text, Option.getD_some, hbne,
      drainQueue_pair _ _ _ _ _ _ _ _ _ hc1 hc2]
  rw [e2]
  have e3 : (step
        { reputations := (getReputation (getReputation [] p1.email).1 p2.email).1,
          textQueue := [], videoQueue := [],
          sessions := [(n, { id := n, mode := "text", participants := [h1, h2],
                             startedAt := t2 })],
          emailToSockets := es, profiles := profs,
          modes := aset (aset ms h1 "text") h2 "text",
          connected := conn, nextId := n + 1 } h3 (.matchRequest "text") t3).1
      = { reputations := (getReputation
            (getReputation (getReputation [] p1.email).1 p2.email).1 p3.email).1,
          textQueue := [h3], videoQueue := [],
          sessions := [(n, { id := n, mode := "text", participants := [h1, h2],
                             startedAt := t2 })],
          emailToSockets := es, profiles := profs,
          modes := aset (aset (aset ms h1 "text") h2 "text") h3 "text",
          connected := conn, nextId := n + 1 } := by
    simp only [step, getQueue_text, hp3]
    simp only [hb3, Bool.false_eq_true, if_false]
    simp [removeFromQueues, attemptPair]
  rw [e3]
  have e4 : (step
        { reputations := (getReputation
            (getReputation (getReputation [] p1.email).1 p2.email).1 p3.email).1,
          textQueue := [h3], videoQueue := [],
          sessions := [(n, { id := n, mode := "text", participants := [h1, h2],
                             startedAt := t2 })],
          emailToSockets := es, profiles := profs,
          modes := aset (aset (aset ms h1 "text") h2 "text") h3 "text",
          connected := conn, nextId := n + 1 } h4 (.matchRequest "text") t4).1
      = { reputations := (getReputation (getReputation
            (getReputation (getReputation [] p1.email).1 p2.email).1 p3.email).1
            p4.email).1,
          textQueue := [], videoQueue := [],
          sessions := [(n, { id := n, mode := "text", participants := [h1, h2],
                             startedAt := t2 }),
                       (n + 1, { id := n + 1, mode := "text",
                                 participants := [h3, h4], startedAt := t4 })],
          emailToSockets := es, profiles := profs,
          modes := aset (aset (aset (aset ms h1 "text") h2 "text") h3 "text") h4 "text",
          connected := conn, nextId := n + 2 } := by
    have hbne : (h3 != h4) = true := by simpa using h34
    simp only [step, getQueue_text, hp4]
    simp only [hb4, Bool.false_eq_true, if_false]
    simp [removeFromQueues, attemptPair, setQueue_text, Option.getD_some, hbne,
      drainQueue_pair _ _ _ _ _ _ _ _ _ hc3 hc4]
  rw [e4]
  simp

/-- Witness for C1 with four concrete handles. -/
theorem claim1_witness :
    (runEvents
      { reputations := [], textQueue := [], videoQueue := [], sessions := [],
        emailToSockets := [],
        profiles := [("A", { name := "a", email := "a@x.edu", interests := [] }),
                     ("B", { name := "b", email := "b@x.edu", interests := [] }),
                     ("C", { name := "c", email := "c@x.edu", interests := [] }),
                     ("D", { name := "d", email := "d@x.edu", interests := [] })],
        modes := [], connected := ["A", "B", "C", "D"], nextId := 0 }
      [("A", .matchRequest "text", 1), ("B", .matchRequest "text", 2),
       ("C", .matchRequest "text", 3), ("D", .matchRequest "text", 4)]).1.sessions.map
      (fun e => e.2.participants) = [["A", "B"], ["C", "D"]] :=
  claim1_fifo_pairing "A" "B" "C" "D"
    { name := "a", email := "a@x.edu", interests := [] }
    { name := "b", email := "b@x.edu", interests := [] }
    { name := "c", email := "c@x.edu", interests := [] }
    { name := "d", email := "d@x.edu", interests := [] }
    []
    [("A", { name := "a", email := "a@x.edu", interests := [] }),
     ("B", { name := "b", email := "b@x.edu", interests := [] }),
     ("C", { name := "c", email := "c@x.edu", interests := [] }),
     ("D", { name := "d", email := "d@x.edu", interests := [] })]
    [] ["A", "B", "C", "D"] 0 1 2 3 4
    (by decide) (by decide) (by decide) (by decide) (by decide)
    (by decide) (by decide) (by decide) (by decide)

theorem inSessionCount_append (s t : List (Nat × Session)) (h : String) :
    inSessionCount (s ++ t) h = inSessionCount s h + inSessionCount t h := by
  unfold inSessionCount
  rw [List.filter_append, List.length_append]

theorem inSessionCount_single (n : Nat) (sess : Session) (h : String) :
    inSessionCount [(n, sess)] h
      = if sess.participants.contains h then 1 else 0 := by
  unfold inSessionCount
  simp [List.filter]
  split <;> simp_all

theorem inSessionCount_filter_le (s : List (Nat × Session))
    (p : Nat × Session → Bool) (h : String) :
    inSessionCount (s.filter p) h ≤ inSessionCount s h := by
  unfold inSessionCount
  exact List.Sublist.length_le
    (List.Sublist.filter _ (List.filter_sublist s))

/-- Behavior of the drain loop on a well-formed queue: the remaining
queue is a sublist, every remaining entry is still session-free, every
handle stays in at most one session, and handles outside the queue are
untouched. -/
theorem drainQueue_inv (c : List String) (profs : List (String × Profile)) (m : String)
    (now : Nat) :
    ∀ (q : List String) (n : Nat) (s : List (Nat × Session)) (e : List Emission),
      q.Nodup →
      (∀ h ∈ q, inSessionCount s h = 0) →
      (∀ h, inSessionCount s h ≤ 1) →
      ((drainQueue c profs m now q n s e).1.Sublist q ∧
       (∀ h ∈ (drainQueue c profs m now q n s e).1,
         inSessionCount (drainQueue c profs m now q n s e).2.2.1 h = 0) ∧
       (∀ h, inSessionCount (drainQueue c profs m now q n s e).2.2.1 h ≤ 1) ∧
       (∀ h, h ∉ q →
         inSessionCount (drainQueue c profs m now q n s e).2.2.1 h
           = inSessionCount s h))
  | [], n, s, e => by
      intro _ hmem hle
      simp only [drainQueue_nil]
      exact ⟨List.Sublist.refl _, by simp, hle, fun h _ => trivial⟩
  | [x], n, s, e => by
      intro hnd hmem hle
      simp only [drainQueue_one]
      exact ⟨List.Sublist.refl _, hmem, hle, fun h _ => trivial⟩
  | x :: y :: rest, n, s, e => by
      intro hnd hmem hle
      have hndr : rest.Nodup := by
        simp only [List.nodup_cons] at hnd
        exact hnd.2.2
      have hxy : x ≠ y := by
        simp only [List.nodup_cons, List.mem_cons] at hnd
        tauto
      have hxr : x ∉ rest := by
        simp only [List.nodup_cons, List.mem_cons] at hnd
        tauto
      have hyr : y ∉ rest := by
        simp only [List.nodup_cons, List.mem_cons] at hnd
        tauto
      rw [drainQueue]
      split
      · -- stale pop: both discarded
        have ih := drainQueue_inv c profs m now rest n s e hndr
          (fun h hh => hmem h (by simp [hh])) hle
        refine ⟨ih.1.trans ((List.sublist_cons_self _ _).trans
          (List.sublist_cons_self _ _)), ih.2.1, ih.2.2.1, ?_⟩
        intro h hh
        exact ih.2.2.2 h (fun hc => hh (by simp [hc]))
      · -- both live: mint the session and keep draining
        rename_i hlive
        set sess : Session :=
          { id := n, mode := m, participants := [x, y], startedAt := now } with hsess
        have hcount : ∀ h, inSessionCount (s ++ [(n, sess)]) h
            = inSessionCount s h + (if h = x ∨ h = y then 1 else 0) := by
          intro h
          rw [inSessionCount_append, inSessionCount_single]
          have hcond : (sess.participants.contains h) = decide (h = x ∨ h = y) := by
            simp [hsess]
          rw [hcond]
          by_cases hc : h = x ∨ h = y
          · simp [hc]
          · simp [hc]
        have hmem2 : ∀ h ∈ rest, inSessionCount (s ++ [(n, sess)]) h = 0 := by
          intro h hh
          rw [hcount]
          have hne : ¬(h = x ∨ h = y) := by
            rintro (rfl | rfl)
            · exact hxr hh
            · exact hyr hh
          rw [if_neg hne]
          simpa using hmem h (by simp [hh])
        have hle2 : ∀ h, inSessionCount (s ++ [(n, sess)]) h ≤ 1 := by
          intro h
          rw [hcount]
          by_cases hxyh : h = x ∨ h = y
          · rw [if_pos hxyh]
            have : inSessionCount s h = 0 := by
              rcases hxyh with rfl | rfl
              · exact hmem h (by simp)
              · exact hmem h (by simp)
            omega
          · rw [if_neg hxyh]
            have := hle h
            omega
        have ih := drainQueue_inv c profs m now rest (n + 1) (s ++ [(n, sess)])
          (e ++
            [(Target.toSock x, SEvent.matchPaired n m
                (sanitizeProfile (alookup profs y)) true),
             (Target.toSock y, SEvent.matchPaired n m
                (sanitizeProfile (alookup profs x)) false)])
          hndr hmem2 hle2
        refine ⟨ih.1.trans ((List.sublist_cons_self _ _).trans
          (List.sublist_cons_self _ _)), ih.2.1, ih.2.2.1, ?_⟩
        intro h hh
        have hne : ¬(h = x ∨ h = y) := by
          rintro (rfl | rfl) <;> simp at hh
        rw [ih.2.2.2 h (fun hc => hh (by simp [hc])), hcount, if_neg hne]
        exact Nat.add_zero _

@[simp] theorem getQueue_video (st : ServerState) :
    getQueue st "video" = some st.videoQueue := by
  unfold getQueue
  rw [if_neg (by decide)]
  rfl

@[simp] theorem setQueue_video (st : ServerState) (q : List String) :
    setQueue st "video" q = { st with videoQueue := q } := by
  unfold setQueue
  rw [if_neg (by decide)]
  rfl

theorem QSInv_swap (tq vq : List String) (ss : List (Nat × Session))
    (h : QSInv tq vq ss) : QSInv vq tq ss := by
  obtain ⟨h1, h2, h3⟩ := h
  refine ⟨List.Perm.nodup (List.perm_append_comm) h1, ?_, h3⟩
  intro x hx
  refine h2 x ?_
  rw [List.mem_append] at hx ⊢
  tauto

theorem QSInv_filter_queues (tq vq : List String) (ss : List (Nat × Session))
    (f : String → Bool) (h : QSInv tq vq ss) :
    QSInv (tq.filter f) (vq.filter f) ss := by
  obtain ⟨h1, h2, h3⟩ := h
  refine ⟨?_, ?_, h3⟩
  · rw [← List.filter_append]
    exact h1.filter f
  · intro x hx
    rw [← List.filter_append] at hx
    exact h2 x (List.mem_of_mem_filter hx)

theorem QSInv_filter_sessions (tq vq : List String) (ss : List (Nat × Session))
    (p : Nat × Session → Bool) (h : QSInv tq vq ss) :
    QSInv tq vq (ss.filter p) := by
  obtain ⟨h1, h2, h3⟩ := h
  refine ⟨h1, ?_, ?_⟩
  · intro x hx
    have hz := h2 x hx
    have hle := inSessionCount_filter_le ss p x
    omega
  · intro x
    have hz := h3 x
    have hle := inSessionCount_filter_le ss p x
    omega

/-- Core of the `match:request` path: evict the requester from both
queues, append it to one of them, drain that queue; the invariant is
re-established. -/
theorem QSInv_request (c : List String) (profs : List (String × Profile)) (m : String)
    (now : Nat) (Q other : List String) (ss : List (Nat × Session)) (n : Nat)
    (sock : String)
    (hinv : QSInv Q other ss)
    (hfree : inSessionCount ss sock = 0) :
    QSInv (drainQueue c profs m now
        (Q.filter (fun id => id != sock) ++ [sock]) n ss []).1
      (other.filter (fun id => id != sock))
      (drainQueue c profs m now
        (Q.filter (fun id => id != sock) ++ [sock]) n ss []).2.2.1 := by
  obtain ⟨hnd, hmem, hle⟩ := hinv
  have hndf : (Q.filter (fun id => id != sock)
      ++ other.filter (fun id => id != sock)).Nodup := by
    rw [← List.filter_append]
    exact hnd.filter _
  rw [List.nodup_append] at hndf
  obtain ⟨hndQ0, hndO, hdisj⟩ := hndf
  have hsockQ : sock ∉ Q.filter (fun id => id != sock) := by simp
  have hsockO : sock ∉ other.filter (fun id => id != sock) := by simp
  have hndQ : (Q.filter (fun id => id != sock) ++ [sock]).Nodup := by
    rw [List.nodup_append]
    exact ⟨hndQ0, List.nodup_singleton _, by
      intro a ha hb
      simp only [List.mem_singleton] at hb
      subst hb
      exact hsockQ ha⟩
  have hmemQ : ∀ h ∈ Q.filter (fun id => id != sock) ++ [sock],
      inSessionCount ss h = 0 := by
    intro h hh
    rcases List.mem_append.mp hh with hh | hh
    · exact hmem h (List.mem_append_left _ (List.mem_of_mem_filter hh))
    · simp only [List.mem_singleton] at hh
      subst hh
      exact hfree
  obtain ⟨hsub, hmem', hle', hout⟩ :=
    drainQueue_inv c profs m now (Q.filter (fun id => id != sock) ++ [sock]) n ss []
      hndQ hmemQ hle
  refine ⟨?_, ?_, hle'⟩
  · have hbig : ((Q.filter (fun id => id != sock) ++ [sock])
        ++ other.filter (fun id => id != sock)).Nodup := by
      rw [List.nodup_append]
      refine ⟨hndQ, hndO, ?_⟩
      intro a ha hb
      rcases List.mem_append.mp ha with ha | ha
      · exact hdisj ha hb
      · simp only [List.mem_singleton] at ha
        subst ha
        exact hsockO hb
    exact List.Nodup.sublist (hsub.append_right _) hbig
  · intro h hh
    rcases List.mem_append.mp hh with hh | hh
    · exact hmem' h hh
    · have hQ : h ∉ Q.filter (fun id => id != sock) ++ [sock] := by
        intro hc
        rcases List.mem_append.mp hc with hc | hc
        · exact hdisj hc hh
        · simp only [List.mem_singleton] at hc
          subst hc
          exact hsockO hh
      rw [hout h hQ]
      exact hmem h (List.mem_append_right _ (List.mem_of_mem_filter hh))

theorem endSession_fst_shape (st : ServerState) (k : Nat) (l : String) :
    (endSession st k l).1 = st ∨
    (endSession st k l).1
      = { st with sessions := st.sessions.filter (fun e => e.1 != k) } := by
  unfold endSession
  cases alookup st.sessions k with
  | none => exact Or.inl rfl
  | some sess => exact Or.inr rfl

theorem QSInv_remove_endSession (st : ServerState) (k : Nat) (l sock : String)
    (hinv : QueueSessionInv st) :
    QueueSessionInv (removeFromQueues (endSession st k l).1 sock) := by
  rcases endSession_fst_shape st k l with h | h <;> rw [h]
  · exact QSInv_filter_queues _ _ _ _ hinv
  · exact QSInv_filter_queues _ _ _ _ (QSInv_filter_sessions _ _ _ _ hinv)

theorem QSInv_attemptPair_enqueued_text (st4 : ServerState) (now : Nat) (sock : String)
    (Q other : List String) (ss : List (Nat × Session))
    (htq : st4.textQueue = Q.filter (fun id => id != sock) ++ [sock])
    (hvq : st4.videoQueue = other.filter (fun id => id != sock))
    (hss : st4.sessions = ss)
    (hinv : QSInv Q other ss)
    (hfree : inSessionCount ss sock = 0) :
    QueueSessionInv (attemptPair st4 "text" now).1 := by
  show QSInv (drainQueue st4.connected st4.profiles "text" now st4.textQueue
      st4.nextId st4.sessions []).1 st4.videoQueue
    (drainQueue st4.connected st4.profiles "text" now st4.textQueue
      st4.nextId st4.sessions []).2.2.1
  rw [htq, hvq, hss]
  exact QSInv_request _ _ _ _ Q other ss _ sock hinv hfree

theorem QSInv_attemptPair_enqueued_video (st4 : ServerState) (now : Nat) (sock : String)
    (Q other : List String) (ss : List (Nat × Session))
    (hvq : st4.videoQueue = Q.filter (fun id => id != sock) ++ [sock])
    (htq : st4.textQueue = other.filter (fun id => id != sock))
    (hss : st4.sessions = ss)
    (hinv : QSInv Q other ss)
    (hfree : inSessionCount ss sock = 0) :
    QueueSessionInv (attemptPair st4 "video" now).1 := by
  show QSInv st4.textQueue
    (drainQueue st4.connected st4.profiles "video" now st4.videoQueue
      st4.nextId st4.sessions []).1
    (drainQueue st4.connected st4.profiles "video" now st4.videoQueue
      st4.nextId st4.sessions []).2.2.1
  rw [htq, hvq, hss]
  exact QSInv_swap _ _ _ (QSInv_request _ _ _ _ Q other ss _ sock hinv hfree)

/-- Every handler preserves the queue/session invariant, provided a
`match:request` only comes from a handle currently in no session. -/
theorem step_preserves_QSInv (st : ServerState) (sock : String) (ev : CEvent) (now : Nat)
    (hinv : QueueSessionInv st)
    (hsafe : ∀ mode, ev = .matchRequest mode → inSessionCount st.sessions sock = 0) :
    QueueSessionInv (step st sock ev now).1 := by
  cases ev with
  | connect => exact hinv
  | profileUpdate n e i => exact hinv
  | matchRequest mode =>
      have hfree := hsafe mode rfl
      by_cases hm : mode = "text"
      · subst hm
        simp only [step, getQueue_text]
        cases hp : alookup st.profiles sock with
        | none => exact hinv
        | some p =>
            simp only []
            split
            · exact hinv
            · exact QSInv_attemptPair_enqueued_text _ now sock st.textQueue
                st.videoQueue st.sessions rfl rfl rfl hinv hfree
      · by_cases hm2 : mode = "video"
        · subst hm2
          simp only [step, getQueue_video]
          cases hp : alookup st.profiles sock with
          | none => exact hinv
          | some p =>
              simp only []
              split
              · exact hinv
              · exact QSInv_attemptPair_enqueued_video _ now sock st.videoQueue
                  st.textQueue st.sessions rfl rfl rfl (QSInv_swap _ _ _ hinv) hfree
        · simp only [step, getQueue, if_neg hm, if_neg hm2]
          exact hinv
  | chatTextMessage sid body f ts =>
      rw [show (step st sock (.chatTextMessage sid body f ts) now).1 = st from
        chatTextMessage_state st sock sid body f ts now]
      exact hinv
  | chatLeave sid =>
      simp only [step]
      cases sid with
      | none =>
          cases hfs : findSessionBySocket st.sessions sock with
          | none => exact QSInv_filter_queues _ _ _ _ hinv
          | some pr => exact QSInv_remove_endSession st pr.1 sock sock hinv
      | some k =>
          simp only []
          split
          · exact QSInv_remove_endSession st k sock sock hinv
          · cases hfs : findSessionBySocket st.sessions sock with
            | none => exact QSInv_filter_queues _ _ _ _ hinv
            | some pr => exact QSInv_remove_endSession st pr.1 sock sock hinv
  | profileReaction t ty sid =>
      simp only [step]
      split
      · exact hinv
      · exact hinv
  | webrtcOffer sid d =>
      rw [show (step st sock (.webrtcOffer sid d) now).1 = st from
        webrtcOffer_state st sock sid d now]
      exact hinv
  | webrtcAnswer sid d =>
      rw [show (step st sock (.webrtcAnswer sid d) now).1 = st from
        webrtcAnswer_state st sock sid d now]
      exact hinv
  | webrtcIce sid c =>
      rw [show (step st sock (.webrtcIce sid c) now).1 = st from
        webrtcIce_state st sock sid c now]
      exact hinv
  | disconnect =>
      simp only [step]
      have hinv1 : QueueSessionInv
          (removeFromQueues
            { st with connected := st.connected.filter (fun id => id != sock) } sock) :=
        QSInv_filter_queues _ _ _ _ hinv
      cases hfs : findSessionBySocket
          (removeFromQueues
            { st with connected := st.connected.filter (fun id => id != sock) }
            sock).sessions sock with
      | none => exact hinv1
      | some pr =>
          rcases endSession_fst_shape
              (removeFromQueues
                { st with connected := st.connected.filter (fun id => id != sock) } sock)
              pr.1 sock with h | h
          · rw [h]
            exact hinv1
          · rw [h]
            exact QSInv_filter_sessions _ _ _ _ hinv1

theorem runEvents_QSInv :
    ∀ (evs : List (String × CEvent × Nat)) (st : ServerState),
      QueueSessionInv st → SafeRun st evs →
      QueueSessionInv (runEvents st evs).1
  | [], st, hinv, _ => hinv
  | (sock, ev, now) :: rest, st, hinv, hsafe => by
      simp only [runEvents]
      exact runEvents_QSInv rest _
        (step_preserves_QSInv st sock ev now hinv hsafe.1) hsafe.2

/-- C3 counterexample: `match:request` does not check whether the
requester is already in a session.  A pairs with B, then A re-requests
and pairs with C while the (A,B) session is still in the registry, so
handle A is a participant of two simultaneously stored sessions. -/
theorem claim3_counterexample :
    ((runEvents (initState ["A", "B", "C"])
        [("A", .profileUpdate "a" "a@x.edu" [], 0),
         ("B", .profileUpdate "b" "b@x.edu" [], 1),
         ("C", .profileUpdate "c" "c@x.edu" [], 2),
         ("A", .matchRequest "text", 3),
         ("B", .matchRequest "text", 4),
         ("A", .matchRequest "text", 5),
         ("C", .matchRequest "text", 6)]).1.sessions.filter
      (fun e => e.2.participants.contains "A")).length = 2 := by decide

/-- C3 amended: a handle belongs to at most one active session at all
times *provided* no handle issues `match:request` while it is a
participant of an active session (`SafeRun`); the handler performs no
such check itself, so without that proviso a handle can end up in two
sessions (see the counterexample). -/
theorem claim3_at_most_one_session (evs : List (String × CEvent × Nat))
    (st : ServerState) (hinv : QueueSessionInv st) (hsafe : SafeRun st evs) :
    ∀ h, inSessionCount (runEvents st evs).1.sessions h ≤ 1 :=
  fun h => (runEvents_QSInv evs st hinv hsafe).2.2 h

/-- Witness for C3 amended on a concrete safe run. -/
theorem claim3_amended_witness :
    inSessionCount
      (runEvents (initState ["A"]) [("A", .matchRequest "text", 0)]).1.sessions "A" ≤ 1 :=
  claim3_at_most_one_session [("A", .matchRequest "text", 0)] (initState ["A"])
    ⟨by simp [initState], by simp [initState, inSessionCount],
     fun h => by simp [initState, inSessionCount]⟩
    ⟨fun mode hm => by simp [initState, inSessionCount], trivial⟩ "A"

end BadgerConnect
